import Mathlib

/-!
Verification development for the durable-entities-agents repository.

The repository wires LLM "agents" into Azure Durable Functions primitives
(entities, orchestrators, activities).  This file shallowly embeds the
Python source relevant to the frozen claims:

* `src/durable_entity_agents/sessions.py`   — `InMemorySession`
* `src/durable_entity_agents/app.py`        — entity dispatch, `run_agent`,
  `agent_run_orchestrator` (variant "A"; `src/function_app.py` has the
  same dispatch with a fixed non-empty registry)
* `src/durable_entities_agents/app.py`      — two-registry entity dispatch
  (variant "C"), `run_agent`, `agent_run_orchestrator`
* `src/multilingual_writer/functions.py`    — fan-out orchestrator
* `src/multi_sdk_agents/functions.py`       — two-SDK fan-out orchestrator
* `src/travel_planner/functions.py`         — human-approval orchestrator,
  `book_travel_activity`

Python JSON-able values are modelled by `JValue`; Python `str` by Lean
`String` (entity keys additionally as `List Char` where splitting is
proved about); Python dicts by association lists in insertion order.
-/

/-- A Python value as it appears across the JSON-serializable boundary:
`None`, `bool`, `int`, `str`, `list`, `dict` (fields in insertion order). -/
inductive JValue where
  | null : JValue
  | bool : Bool → JValue
  | num : Int → JValue
  | str : String → JValue
  | arr : List JValue → JValue
  | obj : List (String × JValue) → JValue
deriving Repr

mutual

/-- Structural equality test on `JValue` (Python `==` on JSON values,
with dict fields compared in order; all embedded dicts are built in a
fixed order, so this is the equality every claim needs). -/
def JValue.beq : JValue → JValue → Bool
  | .null, .null => true
  | .bool a, .bool b => a == b
  | .num a, .num b => a == b
  | .str a, .str b => a == b
  | .arr xs, .arr ys => JValue.beqList xs ys
  | .obj fs, .obj gs => JValue.beqFields fs gs
  | _, _ => false

/-- Element-wise equality of value lists. -/
def JValue.beqList : List JValue → List JValue → Bool
  | [], [] => true
  | x :: xs, y :: ys => JValue.beq x y && JValue.beqList xs ys
  | _, _ => false

/-- Element-wise equality of field lists. -/
def JValue.beqFields : List (String × JValue) → List (String × JValue) → Bool
  | [], [] => true
  | (k, v) :: fs, (l, w) :: gs =>
      k == l && JValue.beq v w && JValue.beqFields fs gs
  | _, _ => false

end

theorem JValue.beqList_eq (xs ys : List JValue)
    (ih : ∀ x ∈ xs, ∀ b, JValue.beq x b = true → x = b)
    (h : JValue.beqList xs ys = true) : xs = ys := by
  induction xs generalizing ys with
  | nil => cases ys with
    | nil => rfl
    | cons y ys => simp [JValue.beqList] at h
  | cons x xs ihl =>
    cases ys with
    | nil => simp [JValue.beqList] at h
    | cons y ys =>
      simp only [JValue.beqList, Bool.and_eq_true] at h
      have hx : x = y := ih x (by simp) y h.1
      have hxs : xs = ys :=
        ihl ys (fun z hz b hb => ih z (List.mem_cons_of_mem x hz) b hb) h.2
      rw [hx, hxs]

theorem JValue.beqFields_eq (fs gs : List (String × JValue))
    (ih : ∀ f ∈ fs, ∀ b, JValue.beq f.2 b = true → f.2 = b)
    (h : JValue.beqFields fs gs = true) : fs = gs := by
  induction fs generalizing gs with
  | nil => cases gs with
    | nil => rfl
    | cons g gs => simp [JValue.beqFields] at h
  | cons f fs ihl =>
    obtain ⟨k, v⟩ := f
    cases gs with
    | nil => simp [JValue.beqFields] at h
    | cons g gs =>
      obtain ⟨l, w⟩ := g
      simp only [JValue.beqFields, Bool.and_eq_true, beq_iff_eq] at h
      have hv : v = w := ih (k, v) (by simp) w h.1.2
      have hfs : fs = gs :=
        ihl gs (fun z hz b hb => ih z (List.mem_cons_of_mem (k, v) hz) b hb) h.2
      rw [h.1.1, hv, hfs]

theorem JValue.eq_of_beq_aux :
    ∀ (n : Nat) (a b : JValue), sizeOf a ≤ n → JValue.beq a b = true → a = b := by
  intro n
  induction n with
  | zero =>
    intro a b ha _
    exact absurd ha (by cases a <;> simp)
  | succ n ih =>
    intro a b ha h
    cases a <;> cases b <;> simp only [JValue.beq] at h
    case null.null => rfl
    case bool.bool a b => rw [(by exact of_decide_eq_true h : a = b)]
    case num.num a b => rw [(by exact of_decide_eq_true h : a = b)]
    case str.str a b =>
      have : a = b := by
        have := h
        simpa using this
      rw [this]
    case arr.arr xs ys =>
      have hxs : xs = ys := by
        refine JValue.beqList_eq xs ys (fun x hx b hb => ih x b ?_ hb) h
        have h1 := List.sizeOf_lt_of_mem hx
        have h2 : sizeOf (JValue.arr xs) = 1 + sizeOf xs := by simp
        omega
      rw [hxs]
    case obj.obj fs gs =>
      have hfs : fs = gs := by
        refine JValue.beqFields_eq fs gs (fun f hf b hb => ih f.2 b ?_ hb) h
        have h1 := List.sizeOf_lt_of_mem hf
        have h2 : sizeOf f = 1 + sizeOf f.1 + sizeOf f.2 := by
          obtain ⟨u, w⟩ := f
          simp
        have h3 : sizeOf (JValue.obj fs) = 1 + sizeOf fs := by simp
        omega
      rw [hfs]
    all_goals exact absurd h (by simp)

theorem JValue.beq_self : ∀ (a : JValue), JValue.beq a a = true := by
  intro a
  suffices hs : ∀ (n : Nat) (a : JValue), sizeOf a ≤ n → JValue.beq a a = true from
    hs (sizeOf a) a (Nat.le_refl _)
  intro n
  induction n with
  | zero =>
    intro a ha
    exact absurd ha (by cases a <;> simp)
  | succ n ih =>
    intro a ha
    cases a <;> simp only [JValue.beq]
    case bool b => simp
    case num m => simp
    case str s => simp
    case arr xs =>
      induction xs with
      | nil => rfl
      | cons x t iht =>
        simp only [JValue.beqList, Bool.and_eq_true]
        refine ⟨ih x ?_, ?_⟩
        · have h1 : sizeOf x < sizeOf (JValue.arr (x :: t)) := by
            have := List.sizeOf_lt_of_mem (List.mem_cons_self x t)
            simp only [JValue.arr.sizeOf_spec]
            omega
          omega
        · refine iht ?_
          have : sizeOf (JValue.arr t) < sizeOf (JValue.arr (x :: t)) := by
            simp only [JValue.arr.sizeOf_spec, List.cons.sizeOf_spec]
            omega
          omega
    case obj fs =>
      induction fs with
      | nil => rfl
      | cons f t iht =>
        obtain ⟨k, v⟩ := f
        simp only [JValue.beqFields, Bool.and_eq_true, beq_self_eq_true, true_and]
        refine ⟨ih v ?_, ?_⟩
        · have h1 : sizeOf v < sizeOf (JValue.obj ((k, v) :: t)) := by
            simp only [JValue.obj.sizeOf_spec, List.cons.sizeOf_spec, Prod.mk.sizeOf_spec]
            omega
          omega
        · refine iht ?_
          have : sizeOf (JValue.obj t) < sizeOf (JValue.obj ((k, v) :: t)) := by
            simp only [JValue.obj.sizeOf_spec, List.cons.sizeOf_spec]
            omega
          omega

instance : DecidableEq JValue := fun a b =>
  if h : JValue.beq a b = true then isTrue (JValue.eq_of_beq_aux (sizeOf a) a b (Nat.le_refl _) h)
  else isFalse (fun he => h (he ▸ JValue.beq_self a))

/-- Escapes one character the way `json.dumps` escapes it (quote and
backslash; control characters are not needed by any claim input). -/
def jsonEscapeChar (c : Char) : String :=
  if c = '\\' then "\\\\"
  else if c = '"' then "\\\""
  else String.singleton c

/-- String body escaping used by `json.dumps`. -/
def jsonEscape (s : String) : String :=
  String.join (s.data.map jsonEscapeChar)

mutual

/-- Embeds Python `json.dumps` with its default separators, as called at
`src/durable_entities_agents/app.py:70,85` to normalize non-string entity
input. -/
def jsonDumps : JValue → String
  | .null => "null"
  | .bool true => "true"
  | .bool false => "false"
  | .num n => toString n
  | .str s => "\"" ++ jsonEscape s ++ "\""
  | .arr xs => "[" ++ dumpsItems xs ++ "]"
  | .obj fs => "\x7b" ++ dumpsFields fs ++ "\x7d"

/-- The comma-joined element serializations of a JSON array body. -/
def dumpsItems : List JValue → String
  | [] => ""
  | [x] => jsonDumps x
  | x :: y :: rest => jsonDumps x ++ ", " ++ dumpsItems (y :: rest)

/-- The comma-joined `"key": value` serializations of a JSON object
body. -/
def dumpsFields : List (String × JValue) → String
  | [] => ""
  | [(k, v)] => "\"" ++ jsonEscape k ++ "\": " ++ jsonDumps v
  | (k, v) :: g :: rest =>
      "\"" ++ jsonEscape k ++ "\": " ++ jsonDumps v ++ ", " ++ dumpsFields (g :: rest)

end

/-- Python truthiness (`if not input: ...`) restricted to `JValue`. -/
def pyTruthy : JValue → Bool
  | .null => false
  | .bool b => b
  | .num n => !(n == 0)
  | .str s => !(s == "")
  | .arr xs => !xs.isEmpty
  | .obj fs => !fs.isEmpty

/-- Python `str()` of a value, as used in f-strings.  All claims apply it
to strings, `None` and numbers; for containers the JSON text stands in for
the Python repr. -/
def pyStr : JValue → String
  | .str s => s
  | .null => "None"
  | .bool true => "True"
  | .bool false => "False"
  | .num n => toString n
  | .arr xs => jsonDumps (.arr xs)
  | .obj fs => jsonDumps (.obj fs)

/-- Python error outcomes raised by the embedded code paths. -/
inductive PyError where
  | exception : String → PyError
  | valueError : String → PyError
  | keyError : String → PyError
  | indexError : PyError
  | typeError : String → PyError
  | attributeError : String → PyError
  | jsonDecodeError : PyError
deriving Repr, DecidableEq

/-- Field lookup on an object value (first binding wins, as in a dict). -/
def JValue.lookup (v : JValue) (k : String) : Option JValue :=
  match v with
  | .obj fs => (fs.find? (fun f => f.1 == k)).map Prod.snd
  | _ => none

/-- Python `v.get(k, d)`: returns the default when `k` is absent and
raises `AttributeError` when `v` is not a dict. -/
def pyGetAttrGet (v : JValue) (k : String) (d : JValue) : Except PyError JValue :=
  match v with
  | .obj fs => .ok (((fs.find? (fun f => f.1 == k)).map Prod.snd).getD d)
  | _ => .error (.attributeError "get")

/-- Python `v[k]` for a string key: `KeyError` when absent, `TypeError`
when `v` is not a dict. -/
def pySubscript (v : JValue) (k : String) : Except PyError JValue :=
  match v with
  | .obj fs =>
      match (fs.find? (fun f => f.1 == k)).map Prod.snd with
      | some w => .ok w
      | none => .error (.keyError k)
  | _ => .error (.typeError "not subscriptable")

/-- Python `v[i]` for a non-negative index: `IndexError` when out of
range, `TypeError` when `v` is not a list. -/
def pyIndex (v : JValue) (i : Nat) : Except PyError JValue :=
  match v with
  | .arr xs =>
      match xs.get? i with
      | some x => .ok x
      | none => .error .indexError
  | _ => .error (.typeError "not indexable")

/-- Python dict assignment semantics on a field list: replace in place
when the key exists, append otherwise (insertion order preserved). -/
def setFields (fs : List (String × JValue)) (k : String) (v : JValue) :
    List (String × JValue) :=
  if fs.any (fun f => f.1 == k) then
    fs.map (fun f => if f.1 == k then (k, v) else f)
  else fs ++ [(k, v)]

/-- Python `d[k] = v` on an object value.  All call sites in the embedded
source apply it to dict literals, so the non-dict arm is unreachable
there. -/
def JValue.setItem : JValue → String → JValue → JValue
  | .obj fs, k, v => .obj (setFields fs k v)
  | w, _, _ => w

/-! ## Entity keys

Every entity-runtime variant serializes an entity key as the f-string
`"<agent_name>--<session_id>"` (`src/function_app.py:55`,
`src/durable_entity_agents/app.py:61,89`,
`src/durable_entities_agents/app.py:127,155`) and parses it with
`agent_id.split("--", 1)` destructured into exactly two names
(`src/function_app.py:24`, `src/durable_entity_agents/app.py:32`,
`src/durable_entities_agents/app.py:57`).  Strings are modelled as
`List Char` here so that the first-occurrence split is a plain
recursion. -/

/-- Embeds Python `s.split("--", 1)` destructured into two variables:
splits at the first occurrence of `"--"`; `none` models the `ValueError`
Python raises when the separator does not occur (one-element split). -/
def splitDashDash : List Char → Option (List Char × List Char)
  | [] => none
  | [_] => none
  | c1 :: c2 :: rest =>
      if c1 == '-' && c2 == '-' then some ([], rest)
      else
        match splitDashDash (c2 :: rest) with
        | none => none
        | some p => some (c1 :: p.1, p.2)

/-- Embeds the f-string `f"{agent_name}--{session_id}"`. -/
def serializeEntityKey (agentName sessionId : List Char) : List Char :=
  agentName ++ '-' :: '-' :: sessionId

/-- Whether a name contains the separator sequence `"--"`. -/
def containsSep : List Char → Bool
  | [] => false
  | [_] => false
  | c1 :: c2 :: rest => (c1 == '-' && c2 == '-') || containsSep (c2 :: rest)

/-- Whether a name ends in the character `'-'`. -/
def endsWithDash : List Char → Bool
  | [] => false
  | [c] => c == '-'
  | _ :: c2 :: rest => endsWithDash (c2 :: rest)

/-! ## InMemorySession (src/durable_entity_agents/sessions.py) -/

/-- Embeds `InMemorySession`: an ordered conversation item list.  Items
are opaque to the session, hence the type parameter. -/
structure InMemorySession (A : Type) where
  _items : List A
deriving Repr, DecidableEq

/-- Embeds the constructor `InMemorySession(items)` with its body
`self._items = items or []` (Python `or` keeps a truthy, i.e. non-empty,
list and replaces `None` or `[]` by a fresh empty list). -/
def InMemorySession.init {A : Type} (items : Option (List A)) : InMemorySession A :=
  ⟨match items with
   | none => []
   | some l => if l.isEmpty then [] else l⟩

/-- Embeds the Python slice `xs[start:]` (negative `start` counts from
the end and clamps at 0; `start` past the end yields `[]`). -/
def pySliceFrom {A : Type} (xs : List A) (start : Int) : List A :=
  if start < 0 then xs.drop (((xs.length : Int) + start).toNat)
  else xs.drop start.toNat

/-- Embeds `get_items_sync(limit)`: the whole list for `limit=None`
(`.copy()` of it), else the slice `self._items[-limit:]`. -/
def InMemorySession.get_items_sync {A : Type} (s : InMemorySession A)
    (limit : Option Int) : List A :=
  match limit with
  | none => s._items
  | some l => pySliceFrom s._items (-l)

/-- Embeds the async `get_items(limit)`, which just defers to
`get_items_sync`. -/
def InMemorySession.get_items {A : Type} (s : InMemorySession A)
    (limit : Option Int) : List A :=
  s.get_items_sync limit

/-- Embeds `add_items(items)`: `self._items.extend(items)`. -/
def InMemorySession.add_items {A : Type} (s : InMemorySession A)
    (items : List A) : InMemorySession A :=
  ⟨s._items ++ items⟩

/-- Embeds `pop_item()`: pops and returns the last item, `None` when
empty. -/
def InMemorySession.pop_item {A : Type} (s : InMemorySession A) :
    Option A × InMemorySession A :=
  match s._items.getLast? with
  | none => (none, s)
  | some a => (some a, ⟨s._items.dropLast⟩)

/-- Embeds `clear_session()`: `self._items.clear()`. -/
def InMemorySession.clear_session {A : Type} (_s : InMemorySession A) :
    InMemorySession A :=
  ⟨[]⟩

/-! ## Entity runtime

Two variants of the `agent` durable-entity function exist:

* variant A — `src/durable_entity_agents/app.py:27-51` (a single
  registry of openai-agents `Agent`s; `src/function_app.py:19-44` is the
  same dispatch with a fixed, non-empty literal registry and no
  "No agents defined" guard, which is unreachable there anyway);
* variant C — `src/durable_entities_agents/app.py:52-95` (two optional
  registries, openai-agents and pydantic-ai, tried in that order).

The opaque agent capability (`Runner.run` for openai-agents,
`Agent.run` for pydantic-ai) is modelled as a function from the entity
input and the stored history to the produced output text and the updated
history; the pydantic-ai serialization adapters
(`ModelMessagesTypeAdapter.validate_python`, `to_jsonable_python`) are
identities on the opaque message list. -/

/-- An openai-agents capability: `Runner.run(agent, input, session)`
returning `final_output` and leaving the appended items in the session. -/
structure OpenAIAgentCap where
  runOnSession : JValue → InMemorySession JValue → String × InMemorySession JValue

/-- A pydantic-ai capability: `agent.run(user_prompt, message_history)`
returning `output` and `all_messages()`. -/
structure PydanticAgentCap where
  runOnHistory : JValue → List JValue → String × List JValue

/-- The persisted entity state dict.  Only the keys `"session_data"` and
`"message_history"` are ever read or written by the source; `none` means
the key is absent (fresh state is the empty dict `{}`). -/
structure EntState where
  session_data : Option (List JValue)
  message_history : Option (List JValue)
deriving Repr, DecidableEq

/-- What one entity invocation did: the `context.set_result` value, the
`context.set_state` argument (`none` when `set_state` was never called),
and the exception that escaped, if any. -/
structure EntityOutcome where
  result : Option JValue
  newState : Option EntState
  error : Option PyError
deriving Repr, DecidableEq

/-- Python `registry.get(name)` on a dict modelled as an association
list (keys are unique in a dict, so first match is the match). -/
def dictGet {A : Type} (d : List (String × A)) (k : String) : Option A :=
  (d.find? (fun f => f.1 == k)).map Prod.snd

/-- Python `if not registry` on an `Optional[dict]`: falsy when `None`
or empty. -/
def regTruthy {A : Type} (r : Option (List A)) : Bool :=
  match r with
  | none => false
  | some l => !l.isEmpty

/-- Embeds the input normalization of `src/durable_entities_agents/app.py:68-70,82-85`:
`if not isinstance(input, str): input = json.dumps(input)`. -/
def normalizeInput : JValue → JValue
  | .str s => .str s
  | v => .str (jsonDumps v)

/-- Embeds variant A of the `agent` entity function
(`src/durable_entity_agents/app.py:27-51`): key split, registry guard,
`run` dispatch with `input = context.get_input() or ""` (no JSON
normalization), session load/persist, and a trailing `set_state` that
runs for every operation that does not raise. -/
def agent_entity_A (registry : List (String × OpenAIAgentCap)) (state : EntState)
    (operation entityKey : String) (input : JValue) : EntityOutcome :=
  match splitDashDash entityKey.data with
  | none => ⟨none, none, some (.valueError "not enough values to unpack")⟩
  | some _p =>
    let agent_name := String.mk _p.1
    if registry.isEmpty then ⟨none, none, some (.exception "No agents defined")⟩
    else if operation == "run" then
      match dictGet registry agent_name with
      | none => ⟨none, none, some (.valueError ("Agent " ++ agent_name ++ " not found."))⟩
      | some cap =>
        let session := InMemorySession.init (some (state.session_data.getD []))
        let inp := if pyTruthy input then input else .str ""
        let res := cap.runOnSession inp session
        ⟨some (.str res.1),
         some { state with session_data := some (res.2.get_items_sync none) },
         none⟩
    else ⟨none, some state, none⟩

/-- Embeds variant C of the `agent` entity function
(`src/durable_entities_agents/app.py:52-95`): two optional registries
tried openai-first, JSON normalization of non-string input, and no
`set_state` outside the `run` branch.  `_openai_agents.get(...)` /
`_pydanticai_agents.get(...)` on an uninitialized (`None`) registry is
the Python `AttributeError`. -/
def agent_entity_C (openaiAgents : Option (List (String × OpenAIAgentCap)))
    (pydanticaiAgents : Option (List (String × PydanticAgentCap)))
    (state : EntState) (operation entityKey : String) (input : JValue) : EntityOutcome :=
  match splitDashDash entityKey.data with
  | none => ⟨none, none, some (.valueError "not enough values to unpack")⟩
  | some _p =>
    let agent_name := String.mk _p.1
    if !regTruthy openaiAgents && !regTruthy pydanticaiAgents then
      ⟨none, none, some (.exception "No agents defined")⟩
    else if operation == "run" then
      match openaiAgents with
      | none => ⟨none, none, some (.attributeError "get")⟩
      | some oreg =>
        match dictGet oreg agent_name with
        | some cap =>
          let session := InMemorySession.init (some (state.session_data.getD []))
          let res := cap.runOnSession (normalizeInput input) session
          ⟨some (.str res.1),
           some { state with session_data := some (res.2.get_items_sync none) },
           none⟩
        | none =>
          match pydanticaiAgents with
          | none => ⟨none, none, some (.attributeError "get")⟩
          | some preg =>
            match dictGet preg agent_name with
            | some cap =>
              let res := cap.runOnHistory (normalizeInput input) (state.message_history.getD [])
              ⟨some (.str res.1),
               some { state with message_history := some res.2 },
               none⟩
            | none => ⟨none, none, some (.valueError ("Agent " ++ agent_name ++ " not found."))⟩
    else ⟨none, none, none⟩

/-! ## Orchestrator engine surface

The replay scheduler itself lives in the `azure-durable-functions`
dependency, not under `src/`.  Modelled from the spec: an orchestrator
execution is replayed against the instance history; every durable action
the logic requests is recorded in schedule order, and completed results
are fed back from history.  A task is identified by its schedule
position; the history is the list of completion events
`(task position, result)` in completion order, and `task_all` completes
only when every child has completed, returning per-child results in
input order (spec sections 3 "Task", 4.2 and 5). -/

/-- One durable action requested by orchestrator logic, plus the custom
status write, in the order the logic issued them. -/
inductive DAction where
  | callEntity (entityName key operation : String) (input : JValue)
  | callActivity (name : String) (input : JValue)
  | waitForExternalEvent (name : String)
  | setCustomStatus (status : JValue)
deriving Repr, DecidableEq

/-- Terminal or suspension outcome of one replay pass. -/
inductive OrchStatus where
  | suspended
  | completed (v : JValue)
  | failed (e : PyError)
deriving Repr, DecidableEq

/-- The replay environment of one orchestrator execution: the values the
engine feeds back into the logic.  `uuid4` is the stream of
`uuid.uuid4()` draws (one per call, in call order) — a fresh random
stream on every execution, including replays; `history` is the completed
task events `(schedule position, result)` in completion order. -/
structure OrchEnv where
  uuid4 : Nat → String
  history : List (Nat × JValue)

/-- Modelled from the spec: the recorded completion value of the task at
a schedule position, `none` while it is still pending. -/
def taskResult (history : List (Nat × JValue)) (id : Nat) : Option JValue :=
  (history.find? (fun e => e.1 == id)).map Prod.snd

/-- Modelled from the spec: `task_all(tasks)` — completes only when every
child task has completed, with per-child results in input order
regardless of the completion order recorded in `history`. -/
def task_all (history : List (Nat × JValue)) (ids : List Nat) : Option (List JValue) :=
  match ids with
  | [] => some []
  | id :: rest =>
      match taskResult history id, task_all history rest with
      | some v, some vs => some (v :: vs)
      | _, _ => none

/-- Embeds the `run_agent` helper (`src/durable_entities_agents/app.py:152-156`,
identically `src/durable_entity_agents/app.py:86-90`): when `session_id`
is falsy it is replaced by `str(uuid.uuid4())` — the given draw of the
ambient random stream — and the entity call
`EntityId("Agent", f"{agent_name}--{session_id}")`, `"run"`, `input` is
scheduled. -/
def run_agent (uuid4 : String) (agent_name : String) (session_id : String)
    (input : JValue) : DAction :=
  let sid := if session_id == "" then uuid4 else session_id
  .callEntity "Agent" (agent_name ++ "--" ++ sid) "run" input

/-- Embeds `agent_run_orchestrator`
(`src/durable_entities_agents/app.py:121-130`, identically
`src/durable_entity_agents/app.py:55-64` and `src/function_app.py:48-61`):
`input = context.get_input() or {}`, three `.get` reads defaulting to
`None`, then one entity call whose result is returned. -/
def agent_run_orchestrator (env : OrchEnv) (input : JValue) :
    List DAction × OrchStatus :=
  let inp := if pyTruthy input then input else .obj []
  match pyGetAttrGet inp "agent_name" .null with
  | .error e => ([], .failed e)
  | .ok agent_name =>
  match pyGetAttrGet inp "session_id" .null with
  | .error e => ([], .failed e)
  | .ok session_id =>
  match pyGetAttrGet inp "operation_input" .null with
  | .error e => ([], .failed e)
  | .ok operation_input =>
    let a0 := DAction.callEntity "Agent" (pyStr agent_name ++ "--" ++ pyStr session_id)
      "run" operation_input
    match taskResult env.history 0 with
    | none => ([a0], .suspended)
    | some r => ([a0], .completed r)

/-- Embeds `multilingual_writer_orchestrator`
(`src/multilingual_writer/functions.py:9-24`): input guard, one awaited
`run_agent` call, then a two-task fan-out joined by `task_all` and
destructured `[french, spanish]`. -/
def multilingual_writer_orchestrator (env : OrchEnv) (input : JValue) :
    List DAction × OrchStatus :=
  if !pyTruthy input then ([], .failed (.exception "Input missing"))
  else
    let a0 := run_agent (env.uuid4 0) "english_paragraph_writer_agent" "" input
    match taskResult env.history 0 with
    | none => ([a0], .suspended)
    | some english =>
      let a1 := run_agent (env.uuid4 1) "french_translator_agent" "" english
      let a2 := run_agent (env.uuid4 2) "spanish_translator_agent" "" english
      match task_all env.history [1, 2] with
      | none => ([a0, a1, a2], .suspended)
      | some [french, spanish] =>
          ([a0, a1, a2], .completed (.obj
            [("english", english), ("french", french), ("spanish", spanish)]))
      | some _ => ([a0, a1, a2], .failed (.valueError "unpack"))

/-- Embeds `multi_sdk_weather_agents_orchestrator`
(`src/multi_sdk_agents/functions.py:8-20`): input guard, two `run_agent`
calls scheduled in the same pass (each f-string subscript is evaluated
just before its call is scheduled), joined by `task_all` and destructured
`[city1_weather, city2_weather]`. -/
def multi_sdk_weather_agents_orchestrator (env : OrchEnv) (input : JValue) :
    List DAction × OrchStatus :=
  if !pyTruthy input then ([], .failed (.exception "Input missing"))
  else
    match pySubscript input "city1" with
    | .error e => ([], .failed e)
    | .ok city1 =>
    let a0 := run_agent (env.uuid4 0) "openai_weather_agent" ""
      (.str ("Current weather in " ++ pyStr city1))
    match pySubscript input "city2" with
    | .error e => ([a0], .failed e)
    | .ok city2 =>
    let a1 := run_agent (env.uuid4 1) "pydanticai_weather_agent" ""
      (.str ("Current weather in " ++ pyStr city2))
    match task_all env.history [0, 1] with
    | none => ([a0, a1], .suspended)
    | some [w1, w2] =>
        ([a0, a1], .completed (.obj [("city1_weather", w1), ("city2_weather", w2)]))
    | some _ => ([a0, a1], .failed (.valueError "unpack"))

/-! ## Travel planner (src/travel_planner/functions.py) -/

/-- The resolved replay environment of one `travel_planner_orchestrator`
execution: all awaited values the engine feeds back.  `agentOut i` is the
result of the i-th `run_agent` call, `loads` is `json.loads` (`none`
models the decode error it raises), `approvalPayload` is the delivered
`"approval_event"` payload, `bookingResult` the completed
`book_travel_activity` task's value, and `uuid4` the ambient
`uuid.uuid4()` stream. -/
structure TravelEnv where
  uuid4 : Nat → String
  agentOut : Nat → String
  loads : String → Option JValue
  approvalPayload : JValue
  bookingResult : JValue

/-- Embeds `travel_planner_orchestrator`
(`src/travel_planner/functions.py:9-61`) at the fully resolved execution
(every awaited task completed): input guard, three sequential `run_agent`
calls with `json.loads` on each result, the custom-status write, the
`"approval_event"` wait, and the approval/rejection branches.  The first
component is the trace of issued actions in issue order, also on the
paths that raise. -/
def travel_planner_orchestrator (env : TravelEnv) (input : JValue) :
    List DAction × OrchStatus :=
  if !pyTruthy input then ([], .failed (.exception "Input missing"))
  else
    match pyGetAttrGet input "specialRequirements" (.str "") with
    | .error e => ([], .failed e)
    | .ok special_requirements =>
    match pyGetAttrGet input "durationInDays" (.num 3) with
    | .error e => ([], .failed e)
    | .ok duration_in_days =>
    let a0 := run_agent (env.uuid4 0) "destination_expert_agent" "" special_requirements
    let destinations_json := env.agentOut 0
    match env.loads destinations_json with
    | none => ([a0], .failed .jsonDecodeError)
    | some destinations =>
    match pyGetAttrGet destinations "recommendations" (.arr []) with
    | .error e => ([a0], .failed e)
    | .ok recs =>
    match pyIndex recs 0 with
    | .error e => ([a0], .failed e)
    | .ok top_destination =>
    match pySubscript top_destination "destination_name" with
    | .error e => ([a0], .failed e)
    | .ok destination_name =>
    match pyGetAttrGet input "budget" (.str "$1000") with
    | .error e => ([a0], .failed e)
    | .ok budget =>
    match pyGetAttrGet input "travelDates" (.str "TBD") with
    | .error e => ([a0], .failed e)
    | .ok travel_dates =>
    let itinerary_request : JValue := .obj
      [("destination_name", destination_name),
       ("duration_in_days", duration_in_days),
       ("budget", budget),
       ("travel_dates", travel_dates),
       ("special_requirements", special_requirements)]
    let a1 := run_agent (env.uuid4 1) "itinerary_planner_agent" "" itinerary_request
    let itinerary_json := env.agentOut 1
    match env.loads itinerary_json with
    | none => ([a0, a1], .failed .jsonDecodeError)
    | some itinerary =>
    let local_recs_request : JValue := .obj
      [("destination_name", destination_name),
       ("duration_in_days", duration_in_days),
       ("preferred_cuisine", .str "Any"),
       ("include_hidden_gems", .bool true),
       ("family_friendly", .bool true)]
    let a2 := run_agent (env.uuid4 2) "local_recommendations_agent" "" local_recs_request
    let local_recs_json := env.agentOut 2
    match env.loads local_recs_json with
    | none => ([a0, a1, a2], .failed .jsonDecodeError)
    | some local_recs =>
    let response : JValue := .obj
      [("destination", top_destination),
       ("itinerary", itinerary),
       ("local_recommendations", local_recs),
       ("approval_status", .str "pending")]
    let a3 := DAction.setCustomStatus response
    let a4 := DAction.waitForExternalEvent "approval_event"
    let approval_result := env.approvalPayload
    if approval_result ≠ .str "approved" then
      ([a0, a1, a2, a3, a4], .completed (response.setItem "approval_status" (.str "rejected")))
    else
      let a5 := DAction.callActivity "book_travel_activity" response
      let booking_result := env.bookingResult
      let response2 := (response.setItem "booking_details" booking_result).setItem
        "approval_status" (.str "approved")
      ([a0, a1, a2, a3, a4, a5], .completed response2)

/-- Zero-pads the decimal form of a value in `[0, 10000)` to width 4,
as the format spec `04d` does. -/
def pad4 (n : Int) : String :=
  let s := toString n.toNat
  if s.length < 4 then String.mk (List.replicate (4 - s.length) '0') ++ s else s

/-- Embeds `book_travel_activity` (`src/travel_planner/functions.py:64-71`).
Python's `hash` is process-specific (string hash randomization), so it is
a parameter; `%` on the positive modulus 10000 agrees with `Int.emod`. -/
def book_travel_activity (pyHash : String → Int) (booking_input : JValue) : JValue :=
  .obj [("booked", .bool true),
        ("booking_id", .str ("TRV-" ++ pad4 (pyHash (pyStr booking_input) % 10000))),
        ("status", .str "confirmed"),
        ("message", .str "Travel booking confirmed successfully")]

/-! ## Claim apparatus and theorems -/

theorem InMemorySession.init_items {A : Type} (l : List A) :
    (InMemorySession.init (some l))._items = l := by
  cases l <;> simp [InMemorySession.init]

/-- A sequence of `add_items` calls executed in order. -/
def addBatches {A : Type} (s : InMemorySession A) (bs : List (List A)) :
    InMemorySession A :=
  bs.foldl InMemorySession.add_items s

theorem addBatches_items {A : Type} (s : InMemorySession A) (bs : List (List A)) :
    (addBatches s bs)._items = s._items ++ bs.flatten := by
  induction bs generalizing s with
  | nil => simp [addBatches]
  | cons b t ih =>
    show (addBatches (s.add_items b) t)._items = s._items ++ (b :: t).flatten
    rw [ih (s.add_items b)]
    simp [InMemorySession.add_items]

/-- A capability that appends the turn's derived items `g input` to the
session and answers `out` — the shape of one agent conversation turn. -/
def appendCap (g : JValue → List JValue) (out : String) : OpenAIAgentCap :=
  ⟨fun v s => (out, s.add_items (g v))⟩

/-- Sequential `run` invocations of entity variant A against one key,
each seeing the prior call's persisted state; `none` when a call raised
or did not persist. -/
def runTurns (registry : List (String × OpenAIAgentCap)) (entityKey : String)
    (st : EntState) (inputs : List JValue) : Option EntState :=
  match inputs with
  | [] => some st
  | i :: rest =>
      match (agent_entity_A registry st "run" entityKey i).newState with
      | some st2 => runTurns registry entityKey st2 rest
      | none => none

theorem runTurns_appendCap (g : JValue → List JValue) (out : String)
    (key : String) (p : List Char × List Char)
    (hsplit : splitDashDash key.data = some p)
    (st : EntState) (inputs : List JValue) :
    ∃ st2, runTurns [(String.mk p.1, appendCap g out)] key st inputs = some st2
      ∧ st2.session_data.getD [] = st.session_data.getD []
          ++ (inputs.map (fun i => g (if pyTruthy i then i else .str ""))).flatten
      ∧ st2.message_history = st.message_history := by
  induction inputs generalizing st with
  | nil => exact ⟨st, rfl, by simp, rfl⟩
  | cons i rest ih =>
    have hstep : (agent_entity_A [(String.mk p.1, appendCap g out)] st "run" key i).newState
        = some { st with session_data := some (st.session_data.getD []
            ++ g (if pyTruthy i then i else .str "")) } := by
      simp only [agent_entity_A, hsplit]
      simp [dictGet, appendCap, InMemorySession.add_items,
        InMemorySession.get_items_sync, InMemorySession.init_items]
    obtain ⟨st2, h1, h2, h3⟩ := ih { st with session_data := some (st.session_data.getD []
      ++ g (if pyTruthy i then i else .str "")) }
    refine ⟨st2, ?_, ?_, h3⟩
    · show (match (agent_entity_A [(String.mk p.1, appendCap g out)] st "run" key i).newState with
        | some st2 => runTurns [(String.mk p.1, appendCap g out)] key st2 rest
        | none => none) = some st2
      rw [hstep]
      exact h1
    · rw [h2]
      simp

/-- C3: session history is never lost and keeps chronological order: a
sequence of `add_items` batches on an `InMemorySession` is read back by
`get_items` as the initial items followed by every batch in call order;
persisting via `get_items_sync` and reloading into a fresh
`InMemorySession` yields the same item sequence; and N sequential `run`
invocations of the entity against one key leave the persisted
`session_data` holding all N turns' appended items in call order. -/
theorem C3_session_history (A : Type) (start : List A) (bs : List (List A))
    (g : JValue → List JValue) (out : String) (key : String)
    (p : List Char × List Char) (hsplit : splitDashDash key.data = some p)
    (st : EntState) (inputs : List JValue) :
    (addBatches (InMemorySession.init (some start)) bs).get_items none = start ++ bs.flatten
    ∧ (InMemorySession.init (some
          ((addBatches (InMemorySession.init (some start)) bs).get_items_sync none))).get_items_sync none
        = (addBatches (InMemorySession.init (some start)) bs).get_items_sync none
    ∧ ∃ st2, runTurns [(String.mk p.1, appendCap g out)] key st inputs = some st2
        ∧ st2.session_data.getD [] = st.session_data.getD []
            ++ (inputs.map (fun i => g (if pyTruthy i then i else .str ""))).flatten := by
  refine ⟨?_, ?_, ?_⟩
  · simp [InMemorySession.get_items, InMemorySession.get_items_sync,
      addBatches_items, InMemorySession.init_items]
  · simp [InMemorySession.get_items_sync, InMemorySession.init_items]
  · obtain ⟨st2, h1, h2, _⟩ := runTurns_appendCap g out key p hsplit st inputs
    exact ⟨st2, h1, h2⟩

/-- Witness for C3 at concrete inputs: three batches read back in order,
and two `run` turns against the key `"haiku_agent--s1"` accumulate both
turns' items. -/
theorem C3_session_history_witness :
    (addBatches (InMemorySession.init (some [1])) [[2], [3]]).get_items none = [1, 2, 3]
    ∧ ∃ st2, runTurns [("haiku_agent", appendCap (fun i => [i]) "ok")] "haiku_agent--s1"
          ⟨none, none⟩ [.str "a", .str "b"] = some st2
        ∧ st2.session_data.getD [] = [.str "a", .str "b"] := by
  have h := C3_session_history Nat [1] [[2], [3]] (fun i => [i]) "ok" "haiku_agent--s1"
    ("haiku_agent".data, "s1".data) rfl ⟨none, none⟩ [.str "a", .str "b"]
  obtain ⟨h1, _, st2, h3, h4⟩ := h
  exact ⟨by simpa using h1, st2, h3, by simpa using h4⟩

/-- C10: `get_items`/`get_items_sync` with `limit = 0` return the whole
item list (the Python slice `[-0:]` is `[0:]`), exactly as `limit = None`
does; with `0 < limit ≤ length` they return exactly the last `limit`
items in order. -/
theorem C10_get_items_limit_zero (A : Type) (s : InMemorySession A) :
    (s.get_items (some 0) = s.get_items_sync none
      ∧ s.get_items_sync (some 0) = s.get_items_sync none)
    ∧ ∀ limit : Int, 0 < limit → limit ≤ (s._items.length : Int) →
        s.get_items (some limit) = s._items.drop (s._items.length - limit.toNat)
        ∧ s.get_items_sync (some limit)
            = s._items.drop (s._items.length - limit.toNat) := by
  constructor
  · constructor <;>
      simp [InMemorySession.get_items, InMemorySession.get_items_sync, pySliceFrom]
  · intro limit h1 h2
    have hmain : s.get_items_sync (some limit)
        = s._items.drop (s._items.length - limit.toNat) := by
      simp only [InMemorySession.get_items_sync, pySliceFrom]
      have hlt : -limit < 0 := by omega
      rw [if_pos hlt]
      congr 1
      omega
    exact ⟨hmain, hmain⟩

/-- Witness for C10 at a three-item session: `limit = 0` returns all
three items, `limit = 2` the last two. -/
theorem C10_get_items_limit_zero_witness :
    (InMemorySession.mk [1, 2, 3] : InMemorySession Nat).get_items (some 0) = [1, 2, 3]
    ∧ (InMemorySession.mk [1, 2, 3] : InMemorySession Nat).get_items (some 2) = [2, 3] := by
  have h := C10_get_items_limit_zero Nat (InMemorySession.mk [1, 2, 3])
  refine ⟨by simpa [InMemorySession.get_items_sync] using h.1.1, ?_⟩
  have h2 := (h.2 2 (by norm_num) (by norm_num)).1
  simpa using h2

/-- C4 counterexample: the claim's precondition — `agentName` contains no
occurrence of `"--"` — is not enough.  With `agentName = "a-"` (which
contains no `"--"`) and `sessionId = "-b"`, the serialized key is
`"a----b"`, whose first `"--"` occurrence starts inside `agentName`'s
trailing `'-'`, so the first-occurrence split returns
`("a", "--b")`, not `("a-", "-b")`. -/
theorem C4_roundtrip_counterexample :
    containsSep ['a', '-'] = false
    ∧ splitDashDash (serializeEntityKey ['a', '-'] ['-', 'b'])
        = some (['a'], ['-', '-', 'b'])
    ∧ splitDashDash (serializeEntityKey ['a', '-'] ['-', 'b'])
        ≠ some (['a', '-'], ['-', 'b']) := by
  refine ⟨rfl, rfl, ?_⟩
  decide

/-- C4 as amended: the round trip additionally needs `agentName` not to
end in `'-'` (otherwise the separator occurrence formed across the
boundary wins).  Under both conditions, splitting the serialized key
`"<agentName>--<sessionId>"` at the first `"--"` recovers exactly
`(agentName, sessionId)`, for every `sessionId`, including ones that
contain `"--"` themselves. -/
theorem C4_roundtrip_amended (a sid : List Char)
    (h1 : containsSep a = false) (h2 : endsWithDash a = false) :
    splitDashDash (serializeEntityKey a sid) = some (a, sid) := by
  induction a with
  | nil => simp [serializeEntityKey, splitDashDash]
  | cons c a2 ih =>
    cases a2 with
    | nil =>
      have hc : (c == '-') = false := by simpa [endsWithDash] using h2
      simp [serializeEntityKey, splitDashDash, hc]
    | cons d a3 =>
      have hsep : (c == '-' && d == '-') = false := by
        simp only [containsSep, Bool.or_eq_false_iff] at h1
        exact h1.1
      have htail : containsSep (d :: a3) = false := by
        simp only [containsSep, Bool.or_eq_false_iff] at h1
        exact h1.2
      have hdash : endsWithDash (d :: a3) = false := by
        simpa [endsWithDash] using h2
      have ihr := ih htail hdash
      simp only [serializeEntityKey, List.cons_append] at ihr ⊢
      simp only [splitDashDash, hsep, Bool.false_eq_true, if_false]
      rw [ihr]

/-- Witness for C4 at a concrete key: `agentName = "haiku"`,
`sessionId = "s1--x"` (the session id itself contains the separator). -/
theorem C4_roundtrip_amended_witness :
    splitDashDash (serializeEntityKey
        ['h', 'a', 'i', 'k', 'u'] ['s', '1', '-', '-', 'x'])
      = some (['h', 'a', 'i', 'k', 'u'], ['s', '1', '-', '-', 'x']) :=
  C4_roundtrip_amended ['h', 'a', 'i', 'k', 'u'] ['s', '1', '-', '-', 'x']
    (by decide) (by decide)

theorem taskResult_eq_of_mem (h : List (Nat × JValue))
    (hnd : (h.map Prod.fst).Nodup) (id : Nat) (v : JValue)
    (hm : (id, v) ∈ h) : taskResult h id = some v := by
  induction h with
  | nil => cases hm
  | cons hd t ih =>
    obtain ⟨a, b⟩ := hd
    rw [List.map_cons, List.nodup_cons] at hnd
    rcases List.mem_cons.mp hm with heq | hmem
    · obtain ⟨rfl, rfl⟩ := Prod.mk.injEq .. ▸ heq
      simp [taskResult, List.find?]
    · have hne : (a == id) = false := by
        have : id ∈ t.map Prod.fst := List.mem_map.mpr ⟨(id, v), hmem, rfl⟩
        simp only [beq_eq_false_iff_ne, ne_eq]
        intro hcontra
        exact hnd.1 (hcontra ▸ this)
      have := ih hnd.2 hmem
      simpa [taskResult, List.find?, hne] using this

theorem task_all_of_each (hist : List (Nat × JValue)) (l : List (Nat × JValue))
    (h : ∀ p ∈ l, taskResult hist p.1 = some p.2) :
    task_all hist (l.map Prod.fst) = some (l.map Prod.snd) := by
  induction l with
  | nil => rfl
  | cons hd t ih =>
    have hh := h hd (by simp)
    have ht := ih (fun p hp => h p (List.mem_cons_of_mem hd hp))
    simp only [List.map_cons, task_all, hh, ht]

theorem task_all_perm (hist ts : List (Nat × JValue)) (hperm : hist.Perm ts)
    (hnd : (ts.map Prod.fst).Nodup) :
    task_all hist (ts.map Prod.fst) = some (ts.map Prod.snd) := by
  refine task_all_of_each hist ts (fun p hp => ?_)
  have hndh : (hist.map Prod.fst).Nodup :=
    ((hperm.map Prod.fst).nodup_iff).mpr hnd
  exact taskResult_eq_of_mem hist hndh p.1 p.2 (hperm.mem_iff.mpr hp)

/-- C2: `task_all` preserves input order for every completion order: for
tasks with (distinct) positions and results given by `ts`, and a history
that records those completions in any order, `task_all` returns exactly
the per-task results in input order.  Consequently the multilingual
writer orchestrator binds `french` to task 1 (the
`french_translator_agent` call) and `spanish` to task 2 (the
`spanish_translator_agent` call), and the multi-SDK orchestrator binds
`city1_weather`/`city2_weather` to the city1/city2 tasks, for every
completion order of the children. -/
theorem C2_task_all_order (ts hist : List (Nat × JValue)) (hperm : hist.Perm ts)
    (hnd : (ts.map Prod.fst).Nodup)
    (e f s w1 w2 c1 c2 : JValue) (env env2 : OrchEnv) (input input2 : JValue)
    (hin : pyTruthy input = true)
    (hh : env.history.Perm [(0, e), (1, f), (2, s)])
    (hin2 : pyTruthy input2 = true)
    (hc1 : pySubscript input2 "city1" = .ok c1)
    (hc2 : pySubscript input2 "city2" = .ok c2)
    (hh2 : env2.history.Perm [(0, w1), (1, w2)]) :
    task_all hist (ts.map Prod.fst) = some (ts.map Prod.snd)
    ∧ (multilingual_writer_orchestrator env input).2
        = .completed (.obj [("english", e), ("french", f), ("spanish", s)])
    ∧ (multi_sdk_weather_agents_orchestrator env2 input2).2
        = .completed (.obj [("city1_weather", w1), ("city2_weather", w2)]) := by
  refine ⟨task_all_perm hist ts hperm hnd, ?_, ?_⟩
  · have hnd3 : (([(0, e), (1, f), (2, s)] : List (Nat × JValue)).map Prod.fst).Nodup := by
      simp
    have hndh : (env.history.map Prod.fst).Nodup := ((hh.map Prod.fst).nodup_iff).mpr hnd3
    have h0 : taskResult env.history 0 = some e :=
      taskResult_eq_of_mem env.history hndh 0 e (hh.mem_iff.mpr (by simp))
    have h1 : taskResult env.history 1 = some f :=
      taskResult_eq_of_mem env.history hndh 1 f (hh.mem_iff.mpr (by simp))
    have h2 : taskResult env.history 2 = some s :=
      taskResult_eq_of_mem env.history hndh 2 s (hh.mem_iff.mpr (by simp))
    have h12 : task_all env.history [1, 2] = some [f, s] := by
      simp [task_all, h1, h2]
    simp [multilingual_writer_orchestrator, hin, h0, h12]
  · have hnd2 : (([(0, w1), (1, w2)] : List (Nat × JValue)).map Prod.fst).Nodup := by
      simp
    have hndh : (env2.history.map Prod.fst).Nodup := ((hh2.map Prod.fst).nodup_iff).mpr hnd2
    have h0 : taskResult env2.history 0 = some w1 :=
      taskResult_eq_of_mem env2.history hndh 0 w1 (hh2.mem_iff.mpr (by simp))
    have h1 : taskResult env2.history 1 = some w2 :=
      taskResult_eq_of_mem env2.history hndh 1 w2 (hh2.mem_iff.mpr (by simp))
    have h01 : task_all env2.history [0, 1] = some [w1, w2] := by
      simp [task_all, h0, h1]
    simp [multi_sdk_weather_agents_orchestrator, hin2, hc1, hc2, h01]

/-- Witness for C2: completion orders artificially reversed/rotated
relative to schedule order still yield results in input order. -/
theorem C2_task_all_order_witness :
    task_all [(1, .str "b"), (0, .str "a")] [0, 1] = some [.str "a", .str "b"]
    ∧ (multilingual_writer_orchestrator
        ⟨fun _ => "u", [(2, .str "S"), (0, .str "E"), (1, .str "F")]⟩ (.str "topic")).2
        = .completed (.obj [("english", .str "E"), ("french", .str "F"),
            ("spanish", .str "S")])
    ∧ (multi_sdk_weather_agents_orchestrator
        ⟨fun _ => "u", [(1, .str "W2"), (0, .str "W1")]⟩
        (.obj [("city1", .str "Paris"), ("city2", .str "Tokyo")])).2
        = .completed (.obj [("city1_weather", .str "W1"),
            ("city2_weather", .str "W2")]) := by
  have h := C2_task_all_order [(0, .str "a"), (1, .str "b")]
    [(1, .str "b"), (0, .str "a")] (by decide) (by decide)
    (.str "E") (.str "F") (.str "S") (.str "W1") (.str "W2") (.str "Paris") (.str "Tokyo")
    ⟨fun _ => "u", [(2, .str "S"), (0, .str "E"), (1, .str "F")]⟩
    ⟨fun _ => "u", [(1, .str "W2"), (0, .str "W1")]⟩
    (.str "topic") (.obj [("city1", .str "Paris"), ("city2", .str "Tokyo")])
    rfl (by decide) rfl rfl rfl (by decide)
  exact ⟨by simpa using h.1, h.2.1, h.2.2⟩

/-- C1: evaluation of the replay-determinism failure.  `run_agent` with a
falsy `session_id` computes `str(uuid.uuid4())` during orchestrator
execution, so two executions of the same logic against the same
(unchanged, here empty) history prefix — a first pass and a replay, whose
random streams draw different values — schedule entity calls under
different entity keys; in particular the multilingual writer
orchestrator's replay schedules a different action sequence.  With a
caller-supplied non-empty `session_id` the scheduled call is
replay-stable. -/
theorem C1_replay_uuid_divergence :
    run_agent "11111111" "english_paragraph_writer_agent" "" (.str "autumn")
      ≠ run_agent "22222222" "english_paragraph_writer_agent" "" (.str "autumn")
    ∧ (multilingual_writer_orchestrator ⟨fun _ => "11111111", []⟩ (.str "autumn")).1
      ≠ (multilingual_writer_orchestrator ⟨fun _ => "22222222", []⟩ (.str "autumn")).1
    ∧ run_agent "11111111" "agent" "s1" (.str "x")
        = run_agent "22222222" "agent" "s1" (.str "x") :=
  ⟨by decide, by decide, rfl⟩

/-- C7 counterexample: `agent_run_orchestrator` started with no input
does not fail the instance: `input = context.get_input() or {}`
substitutes the empty dict, every `.get` yields `None`, and an entity
call for the key `"None--None"` is scheduled. -/
theorem C7_missing_input_counterexample :
    (agent_run_orchestrator ⟨fun _ => "u", []⟩ .null).1
      = [DAction.callEntity "Agent" "None--None" "run" .null]
    ∧ (agent_run_orchestrator ⟨fun _ => "u", []⟩ .null).2 = .suspended := by
  constructor <;> rfl

/-- C7 as amended: the three blueprint orchestrators (multilingual
writer, multi-SDK weather, travel planner) raise `"Input missing"`
before their first yield when started with falsy input, so no entity
call and no activity call is scheduled; `agent_run_orchestrator` is the
exception — it performs no such check and schedules an entity call for
the key `"None--None"` (see the counterexample). -/
theorem C7_missing_input_amended (env : OrchEnv) (tenv : TravelEnv) (input : JValue)
    (h : pyTruthy input = false) :
    multilingual_writer_orchestrator env input
      = ([], .failed (.exception "Input missing"))
    ∧ multi_sdk_weather_agents_orchestrator env input
      = ([], .failed (.exception "Input missing"))
    ∧ travel_planner_orchestrator tenv input
      = ([], .failed (.exception "Input missing")) := by
  refine ⟨?_, ?_, ?_⟩ <;>
    simp [multilingual_writer_orchestrator, multi_sdk_weather_agents_orchestrator,
      travel_planner_orchestrator, h]

/-- Witness for C7 as amended, at the falsy input `{}` (an empty dict). -/
theorem C7_missing_input_amended_witness :
    pyTruthy (.obj []) = false
    ∧ multilingual_writer_orchestrator ⟨fun _ => "u", []⟩ (.obj [])
        = ([], .failed (.exception "Input missing"))
    ∧ multi_sdk_weather_agents_orchestrator ⟨fun _ => "u", []⟩ (.obj [])
        = ([], .failed (.exception "Input missing"))
    ∧ travel_planner_orchestrator
        ⟨fun _ => "u", fun _ => "", fun _ => none, .null, .null⟩ (.obj [])
        = ([], .failed (.exception "Input missing")) := by
  have h := C7_missing_input_amended ⟨fun _ => "u", []⟩
    ⟨fun _ => "u", fun _ => "", fun _ => none, .null, .null⟩ (.obj []) rfl
  exact ⟨rfl, h.1, h.2.1, h.2.2⟩

/-- C5: the travel planner's human-approval branch: the custom status it
publishes carries `approval_status = "pending"` and is written strictly
before the `"approval_event"` wait is issued; a delivered payload equal
to the string `"approved"` completes the run with
`approval_status = "approved"` and `booking_details` populated from the
`book_travel_activity` task's result (that activity call being the last
scheduled action); any other payload completes the run with
`approval_status = "rejected"` and no activity call is ever scheduled. -/
theorem C5_travel_planner_approval (env : TravelEnv)
    (f0 : String × JValue) (ftl : List (String × JValue))
    (sr dur bud td dests top dname itin lrecs : JValue) (rest : List JValue)
    (hsr : pyGetAttrGet (.obj (f0 :: ftl)) "specialRequirements" (.str "") = .ok sr)
    (hdur : pyGetAttrGet (.obj (f0 :: ftl)) "durationInDays" (.num 3) = .ok dur)
    (hbud : pyGetAttrGet (.obj (f0 :: ftl)) "budget" (.str "$1000") = .ok bud)
    (htd : pyGetAttrGet (.obj (f0 :: ftl)) "travelDates" (.str "TBD") = .ok td)
    (h1 : env.loads (env.agentOut 0) = some dests)
    (h2 : pyGetAttrGet dests "recommendations" (.arr []) = .ok (.arr (top :: rest)))
    (h3 : pySubscript top "destination_name" = .ok dname)
    (h4 : env.loads (env.agentOut 1) = some itin)
    (h5 : env.loads (env.agentOut 2) = some lrecs) :
    (travel_planner_orchestrator env (.obj (f0 :: ftl))).1.take 5
      = [run_agent (env.uuid4 0) "destination_expert_agent" "" sr,
         run_agent (env.uuid4 1) "itinerary_planner_agent" ""
           (.obj [("destination_name", dname), ("duration_in_days", dur),
                  ("budget", bud), ("travel_dates", td),
                  ("special_requirements", sr)]),
         run_agent (env.uuid4 2) "local_recommendations_agent" ""
           (.obj [("destination_name", dname), ("duration_in_days", dur),
                  ("preferred_cuisine", .str "Any"),
                  ("include_hidden_gems", .bool true),
                  ("family_friendly", .bool true)]),
         .setCustomStatus (.obj [("destination", top), ("itinerary", itin),
            ("local_recommendations", lrecs), ("approval_status", .str "pending")]),
         .waitForExternalEvent "approval_event"]
    ∧ (env.approvalPayload = .str "approved" →
        ∃ r, (travel_planner_orchestrator env (.obj (f0 :: ftl))).2 = .completed r
          ∧ r.lookup "approval_status" = some (.str "approved")
          ∧ r.lookup "booking_details" = some env.bookingResult
          ∧ (travel_planner_orchestrator env (.obj (f0 :: ftl))).1.getLast?
              = some (.callActivity "book_travel_activity"
                  (.obj [("destination", top), ("itinerary", itin),
                    ("local_recommendations", lrecs),
                    ("approval_status", .str "pending")])))
    ∧ (env.approvalPayload ≠ .str "approved" →
        ∃ r, (travel_planner_orchestrator env (.obj (f0 :: ftl))).2 = .completed r
          ∧ r.lookup "approval_status" = some (.str "rejected")
          ∧ ∀ n b, DAction.callActivity n b
              ∉ (travel_planner_orchestrator env (.obj (f0 :: ftl))).1) := by
  have hobj : pyTruthy (JValue.obj (f0 :: ftl)) = true := by simp [pyTruthy]
  by_cases hap : env.approvalPayload = .str "approved"
  · have hout : travel_planner_orchestrator env (.obj (f0 :: ftl))
        = ([run_agent (env.uuid4 0) "destination_expert_agent" "" sr,
            run_agent (env.uuid4 1) "itinerary_planner_agent" ""
              (.obj [("destination_name", dname), ("duration_in_days", dur),
                     ("budget", bud), ("travel_dates", td),
                     ("special_requirements", sr)]),
            run_agent (env.uuid4 2) "local_recommendations_agent" ""
              (.obj [("destination_name", dname), ("duration_in_days", dur),
                     ("preferred_cuisine", .str "Any"),
                     ("include_hidden_gems", .bool true),
                     ("family_friendly", .bool true)]),
            .setCustomStatus (.obj [("destination", top), ("itinerary", itin),
               ("local_recommendations", lrecs), ("approval_status", .str "pending")]),
            .waitForExternalEvent "approval_event",
            .callActivity "book_travel_activity"
              (.obj [("destination", top), ("itinerary", itin),
                 ("local_recommendations", lrecs),
                 ("approval_status", .str "pending")])],
           .completed (.obj [("destination", top), ("itinerary", itin),
              ("local_recommendations", lrecs),
              ("approval_status", .str "approved"),
              ("booking_details", env.bookingResult)])) := by
      simp [travel_planner_orchestrator, hobj, hsr, hdur, hbud, htd,
        h1, h2, h3, h4, h5, hap, pyIndex, JValue.setItem, setFields]
    rw [hout]
    refine ⟨rfl, fun _ => ⟨_, rfl, rfl, rfl, rfl⟩, fun hne => absurd hap hne⟩
  · have hout : travel_planner_orchestrator env (.obj (f0 :: ftl))
        = ([run_agent (env.uuid4 0) "destination_expert_agent" "" sr,
            run_agent (env.uuid4 1) "itinerary_planner_agent" ""
              (.obj [("destination_name", dname), ("duration_in_days", dur),
                     ("budget", bud), ("travel_dates", td),
                     ("special_requirements", sr)]),
            run_agent (env.uuid4 2) "local_recommendations_agent" ""
              (.obj [("destination_name", dname), ("duration_in_days", dur),
                     ("preferred_cuisine", .str "Any"),
                     ("include_hidden_gems", .bool true),
                     ("family_friendly", .bool true)]),
            .setCustomStatus (.obj [("destination", top), ("itinerary", itin),
               ("local_recommendations", lrecs), ("approval_status", .str "pending")]),
            .waitForExternalEvent "approval_event"],
           .completed (.obj [("destination", top), ("itinerary", itin),
              ("local_recommendations", lrecs),
              ("approval_status", .str "rejected")])) := by
      simp [travel_planner_orchestrator, hobj, hsr, hdur, hbud, htd,
        h1, h2, h3, h4, h5, hap, pyIndex, JValue.setItem, setFields]
    rw [hout]
    refine ⟨rfl, fun heq => absurd heq hap, fun _ => ⟨_, rfl, rfl, fun n b => ?_⟩⟩
    simp [run_agent]

/-- A concrete destination-expert answer used to instantiate C5. -/
def sampleDest : JValue :=
  .obj [("recommendations", .arr [.obj [("destination_name", .str "Paris")]])]

/-- A concrete resolved environment for the travel planner: every agent
answers `sampleDest`'s JSON, the approval payload is `"approved"`, and
the booking task completed with `book_travel_activity`'s result. -/
def travelWitnessEnv : TravelEnv :=
  ⟨fun _ => "u", fun _ => "j", fun _ => some sampleDest, .str "approved",
   book_travel_activity (fun _ => 42) (.str "response")⟩

/-- Witness for C5 at a concrete input: the approved branch completes
with the booking details and the event wait is the fifth issued action. -/
theorem C5_travel_planner_approval_witness :
    ∃ r, (travel_planner_orchestrator travelWitnessEnv
        (.obj [("specialRequirements", .str "vegan")])).2 = .completed r
      ∧ r.lookup "approval_status" = some (.str "approved")
      ∧ r.lookup "booking_details"
          = some (book_travel_activity (fun _ => 42) (.str "response"))
      ∧ ((travel_planner_orchestrator travelWitnessEnv
          (.obj [("specialRequirements", .str "vegan")])).1.take 5).getLast?
          = some (.waitForExternalEvent "approval_event") := by
  have h := C5_travel_planner_approval travelWitnessEnv
    ("specialRequirements", .str "vegan") [] (.str "vegan") (.num 3) (.str "$1000")
    (.str "TBD") sampleDest (.obj [("destination_name", .str "Paris")]) (.str "Paris")
    sampleDest sampleDest [] rfl rfl rfl rfl rfl rfl rfl rfl rfl
  obtain ⟨r, hr1, hr2, hr3, _⟩ := h.2.1 rfl
  refine ⟨r, hr1, hr2, hr3, ?_⟩
  rw [h.1]
  rfl

/-- A capability that ignores its input and leaves the session as is. -/
def okCap : OpenAIAgentCap := ⟨fun _ s => ("ok", s)⟩

/-- A pydantic-ai capability that ignores its input and history. -/
def okPydCap : PydanticAgentCap := ⟨fun _ h => ("ok", h)⟩

/-- A capability that records the exact value it was handed by appending
it to the session. -/
def echoCap : OpenAIAgentCap := ⟨fun v s => ("out", s.add_items [v])⟩

/-- A pydantic-ai capability that records the exact value it was handed
by appending it to the message history. -/
def pydEchoCap : PydanticAgentCap := ⟨fun v h => ("out", h ++ [v])⟩

/-- C6: evaluation of the registry-initialization bug in the
two-registry entity runtime.  With only the pydantic-ai registration path
used (`_openai_agents` still `None`), every `run` raises
`AttributeError` from `None.get(...)` before any lookup, so even a
registered pydantic agent is never invoked; with only the OpenAI path
used, an unregistered name also raises `AttributeError` (from
`_pydanticai_agents.get`) instead of the `"Agent ... not found."`
`ValueError`.  Only when both registries are initialized does the lookup
fail with exactly that `ValueError` on unregistered names. -/
theorem C6_agent_lookup_crash :
    agent_entity_C none (some [("weather", okPydCap)]) ⟨none, none⟩ "run"
        "weather--s1" (.str "hi")
      = ⟨none, none, some (.attributeError "get")⟩
    ∧ agent_entity_C (some [("a", okCap)]) none ⟨none, none⟩ "run"
        "b--s1" (.str "hi")
      = ⟨none, none, some (.attributeError "get")⟩
    ∧ agent_entity_C (some [("a", okCap)]) (some [("w", okPydCap)]) ⟨none, none⟩ "run"
        "x--s1" (.str "hi")
      = ⟨none, none, some (.valueError "Agent x not found.")⟩
    ∧ agent_entity_C (some [("a", okCap)]) (some [("w", okPydCap)]) ⟨none, none⟩ "run"
        "a--s1" (.str "hi")
      = ⟨some (.str "ok"), some ⟨some [], none⟩, none⟩ := by
  refine ⟨rfl, rfl, rfl, rfl⟩

/-- C9 counterexample: in the durable_entities_agents variant an unknown
operation is a no-op that does NOT persist the state — `set_state` is
only reachable inside the `"run"` branch, so `newState = none` (while the
claim, following the spec, says state is still persisted for every
variant). -/
theorem C9_unknown_op_counterexample :
    agent_entity_C (some [("a", okCap)]) none ⟨some [.str "m"], none⟩ "reset"
        "a--s1" .null
      = ⟨none, none, none⟩ := by
  rfl

/-- C9 as amended: for every operation other than `"run"` (with a
parseable key and the registry guard passed), the
durable_entity_agents/function_app variant sets no result and still
persists the unchanged state via `set_state`; the
durable_entities_agents variant sets no result and leaves the stored
session data unchanged, but does not call `set_state` at all. -/
theorem C9_unknown_op_frame (hd : String × OpenAIAgentCap)
    (tl : List (String × OpenAIAgentCap))
    (oa : Option (List (String × OpenAIAgentCap)))
    (pa : Option (List (String × PydanticAgentCap)))
    (st : EntState) (op key : String) (input : JValue)
    (p : List Char × List Char)
    (hkey : splitDashDash key.data = some p)
    (hop : (op == "run") = false)
    (hreg : (!regTruthy oa && !regTruthy pa) = false) :
    agent_entity_A (hd :: tl) st op key input = ⟨none, some st, none⟩
    ∧ agent_entity_C oa pa st op key input = ⟨none, none, none⟩ := by
  constructor
  · simp [agent_entity_A, hkey, hop]
  · simp [agent_entity_C, hkey, hop, hreg]

/-- Witness for C9 as amended at the operation `"clear"`. -/
theorem C9_unknown_op_frame_witness :
    agent_entity_A [("a", okCap)] ⟨some [.str "m"], none⟩ "clear" "a--s1" .null
      = ⟨none, some ⟨some [.str "m"], none⟩, none⟩
    ∧ agent_entity_C (some [("a", okCap)]) none ⟨some [.str "m"], none⟩ "clear"
        "a--s1" .null
      = ⟨none, none, none⟩ :=
  C9_unknown_op_frame ("a", okCap) [] (some [("a", okCap)]) none
    ⟨some [.str "m"], none⟩ "clear" "a--s1" .null ("a".data, "s1".data)
    rfl rfl rfl

/-- C8 counterexample: in the durable_entity_agents/function_app variant
a truthy non-string operation input reaches the capability unserialized —
the capability observes the dict value itself, not its canonical JSON
text — contradicting the claim's "for every entity-runtime variant". -/
theorem C8_normalization_counterexample :
    (agent_entity_A [("a", echoCap)] ⟨some [], none⟩ "run" "a--s1"
        (.obj [("x", .num 1)])).newState
      = some ⟨some [.obj [("x", .num 1)]], none⟩
    ∧ (agent_entity_A [("a", echoCap)] ⟨some [], none⟩ "run" "a--s1"
        (.obj [("x", .num 1)])).newState
      ≠ some ⟨some [.str (jsonDumps (.obj [("x", .num 1)]))], none⟩ := by
  exact ⟨rfl, by decide⟩

/-- C8 as amended: the durable_entities_agents variant hands the
capability the operation input unchanged when it is a string and its
`json.dumps` serialization otherwise, in both the openai-agents and the
pydantic-ai branches; the durable_entity_agents/function_app variant
performs no JSON normalization — falsy input is replaced by the empty
string and any truthy input, string or not, is passed to the capability
unchanged. -/
theorem C8_input_normalization (cap : OpenAIAgentCap) (pcap : PydanticAgentCap)
    (st : EntState) (input : JValue) (key : String)
    (p : List Char × List Char) (hkey : splitDashDash key.data = some p) :
    (∀ s, normalizeInput (.str s) = .str s)
    ∧ (∀ v, (∀ s, v ≠ .str s) → normalizeInput v = .str (jsonDumps v))
    ∧ agent_entity_C (some [(String.mk p.1, cap)]) none st "run" key input
        = ⟨some (.str (cap.runOnSession (normalizeInput input)
              (InMemorySession.init (some (st.session_data.getD [])))).1),
           some { st with session_data := some ((cap.runOnSession (normalizeInput input)
              (InMemorySession.init (some (st.session_data.getD [])))).2.get_items_sync none) },
           none⟩
    ∧ agent_entity_C (some []) (some [(String.mk p.1, pcap)]) st "run" key input
        = ⟨some (.str (pcap.runOnHistory (normalizeInput input)
              (st.message_history.getD [])).1),
           some { st with message_history := some (pcap.runOnHistory (normalizeInput input)
              (st.message_history.getD [])).2 },
           none⟩
    ∧ agent_entity_A [(String.mk p.1, cap)] st "run" key input
        = ⟨some (.str (cap.runOnSession (if pyTruthy input then input else .str "")
              (InMemorySession.init (some (st.session_data.getD [])))).1),
           some { st with session_data := some ((cap.runOnSession
              (if pyTruthy input then input else .str "")
              (InMemorySession.init (some (st.session_data.getD [])))).2.get_items_sync none) },
           none⟩ := by
  refine ⟨fun s => rfl, ?_, ?_, ?_, ?_⟩
  · intro v hv
    cases v with
    | str s => exact absurd rfl (hv s)
    | null => rfl
    | bool b => rfl
    | num n => rfl
    | arr xs => rfl
    | obj fs => rfl
  · simp [agent_entity_C, hkey, dictGet, regTruthy]
  · simp [agent_entity_C, hkey, dictGet, regTruthy]
  · simp [agent_entity_A, hkey, dictGet]

/-- Witness for C8 as amended at a dict input: the
durable_entities_agents variant serializes it to its JSON text in both
branches; the other variant stores the raw dict. -/
theorem C8_input_normalization_witness :
    (agent_entity_C (some [("a", echoCap)]) none ⟨none, none⟩ "run" "a--s1"
        (.obj [("x", .num 1)])).newState
      = some ⟨some [.str "\x7b\"x\": 1\x7d"], none⟩
    ∧ (agent_entity_C (some []) (some [("a", pydEchoCap)]) ⟨none, none⟩ "run" "a--s1"
        (.obj [("x", .num 1)])).newState
      = some ⟨none, some [.str "\x7b\"x\": 1\x7d"]⟩
    ∧ (agent_entity_A [("a", echoCap)] ⟨none, none⟩ "run" "a--s1"
        (.obj [("x", .num 1)])).newState
      = some ⟨some [.obj [("x", .num 1)]], none⟩ := by
  have h := C8_input_normalization echoCap pydEchoCap ⟨none, none⟩
    (.obj [("x", .num 1)]) "a--s1" ("a".data, "s1".data) rfl
  refine ⟨?_, ?_, ?_⟩
  · rw [h.2.2.1]
    decide
  · rw [h.2.2.2.1]
    decide
  · rw [h.2.2.2.2]
    decide
